import Mathlib

/-!
Shallow embedding of the Visual Consistency Manager of the Gauntlet pipeline
(`src/backend/app/agents/visual_consistency_manager.py`) and of the
per-session helper (`src/backend/app/agents/helpers/video_consistency_helper.py`).

Python dictionaries with string keys are modelled as association lists in
insertion order (`StrDict`); a `d[k]` subscript that can raise `KeyError` is
modelled in the `Except String` monad.  Methods that mutate `self.visual_state`
are modelled as functions from the pre-state to the post-state; methods that
can raise return `Except`.  Network effects of `extract_style_from_diagram`
(the HTTP fetch and the optional vision call) are passed in as explicit
outcome arguments, since the core logic only branches on their results.
-/

/-- Python `sep.join(parts)`. -/
def strJoin (sep : String) : List String → String
  | [] => ""
  | [a] => a
  | a :: b :: rest => a ++ sep ++ strJoin sep (b :: rest)

/-- A Python `dict[str, str]` as an association list in insertion order
(real dicts have unique keys; lookups take the first match). -/
abbrev StrDict := List (String × String)

/-- Python `d[k]` on a string dict: first value bound to `k`, or `KeyError`. -/
def dictGet (d : StrDict) (k : String) : Except String String :=
  match d.find? (fun p => p.1 = k) with
  | some p => .ok p.2
  | none => .error ("KeyError: " ++ k)

/-- Python `d[k] = v`: overwrite in place when `k` is present (position kept),
append at the end otherwise. -/
def dictSet (d : StrDict) (k v : String) : StrDict :=
  if d.any (fun p => p.1 = k) then
    d.map (fun p => if p.1 = k then (p.1, v) else p)
  else d ++ [(k, v)]

/-- The `VisualState` dataclass (fields in source order). -/
structure VisualState where
  reference_image_url : Option String
  primary_colors : List String
  art_style : String
  main_characters : List StrDict
  setting : String
  lighting : String
  atmosphere : String
  camera_style : String
  composition : String
  current_segment : String
  previous_scene_summary : String
  seed : Option Int
deriving DecidableEq, Repr

/-- `VisualState()` with all dataclass defaults, after `__post_init__`
(which replaces the `None` defaults of `primary_colors` and
`main_characters` with empty lists). -/
def VisualState.default : VisualState :=
  { reference_image_url := none
    primary_colors := []
    art_style := "hand-drawn cartoon illustration"
    main_characters := []
    setting := ""
    lighting := "bright, warm lighting"
    atmosphere := "cheerful, educational"
    camera_style := "medium shot, eye level"
    composition := "centered, balanced"
    current_segment := "hook"
    previous_scene_summary := ""
    seed := none }

/-- A serialized snapshot of a `VisualState` as a JSON object: for each
dataclass field, `some v` when the key is present with value `v` and `none`
when the key is absent.  `asdict` produces a snapshot with every key
present; `from_dict` (`cls(**data)`) accepts snapshots with keys missing,
in which case the dataclass defaults (then `__post_init__`) apply. -/
structure Snapshot where
  reference_image_url : Option (Option String)
  primary_colors : Option (List String)
  art_style : Option String
  main_characters : Option (List StrDict)
  setting : Option String
  lighting : Option String
  atmosphere : Option String
  camera_style : Option String
  composition : Option String
  current_segment : Option String
  previous_scene_summary : Option String
  seed : Option (Option Int)
deriving DecidableEq, Repr

/-- The snapshot with every key absent (Python `{}`). -/
def Snapshot.empty : Snapshot :=
  { reference_image_url := none
    primary_colors := none
    art_style := none
    main_characters := none
    setting := none
    lighting := none
    atmosphere := none
    camera_style := none
    composition := none
    current_segment := none
    previous_scene_summary := none
    seed := none }

/-- `VisualState.to_dict`: `asdict(self)` — a snapshot with every key present. -/
def VisualState.to_dict (s : VisualState) : Snapshot :=
  { reference_image_url := some s.reference_image_url
    primary_colors := some s.primary_colors
    art_style := some s.art_style
    main_characters := some s.main_characters
    setting := some s.setting
    lighting := some s.lighting
    atmosphere := some s.atmosphere
    camera_style := some s.camera_style
    composition := some s.composition
    current_segment := some s.current_segment
    previous_scene_summary := some s.previous_scene_summary
    seed := some s.seed }

/-- `VisualState.from_dict`: `cls(**data)`.  A key present in `data` supplies
the field; an absent key leaves the dataclass default, with `__post_init__`
turning the defaulted `None` of the two list fields into `[]`.  No
validation is performed and no error is ever raised for absent keys. -/
def VisualState.from_dict (d : Snapshot) : VisualState :=
  { reference_image_url := d.reference_image_url.getD none
    primary_colors := d.primary_colors.getD []
    art_style := d.art_style.getD "hand-drawn cartoon illustration"
    main_characters := d.main_characters.getD []
    setting := d.setting.getD ""
    lighting := d.lighting.getD "bright, warm lighting"
    atmosphere := d.atmosphere.getD "cheerful, educational"
    camera_style := d.camera_style.getD "medium shot, eye level"
    composition := d.composition.getD "centered, balanced"
    current_segment := d.current_segment.getD "hook"
    previous_scene_summary := d.previous_scene_summary.getD ""
    seed := d.seed.getD none }

/-- `VisualConsistencyManager.load_state`: replaces the owned state with
`VisualState.from_dict(state_dict)`. -/
def load_state (d : Snapshot) : VisualState :=
  VisualState.from_dict d

/-- The continuity clause emitted by `generate_consistent_prompt`. -/
def continuityClause (summary : String) : String :=
  "Continuing from previous scene: " ++ summary ++ "."

/-- One character line: `f"{char['name']}: {char['description']}."`;
either subscript may raise `KeyError` on a malformed character dict. -/
def charLine (ch : StrDict) : Except String String :=
  match dictGet ch "name" with
  | .error e => .error e
  | .ok n =>
      match dictGet ch "description" with
      | .error e => .error e
      | .ok d => .ok (n ++ ": " ++ d ++ ".")

/-- The character lines of `generate_consistent_prompt`, in list order;
the first `KeyError` aborts the whole call, as the exception would. -/
def renderChars : List StrDict → Except String (List String)
  | [] => .ok []
  | ch :: rest =>
      match charLine ch with
      | .error e => .error e
      | .ok line =>
          match renderChars rest with
          | .error e => .error e
          | .ok lines => .ok (line :: lines)

/-- The `prompt_parts` list assembled by `generate_consistent_prompt`
(source lines 250-287), in emission order.  Python string truthiness is
`≠ ""` and list truthiness is `≠ []`; `previous_frame` is truthy when it is
`some` of a non-empty string. -/
def promptParts (s : VisualState) (base_description segment : String)
    (is_video : Bool) (previous_frame : Option String) :
    Except String (List String) :=
  match renderChars s.main_characters with
  | .error e => .error e
  | .ok charParts =>
      .ok ((if s.previous_scene_summary ≠ "" ∧ segment ≠ "hook" then
      [continuityClause s.previous_scene_summary]
    else [])
    ++ [base_description]
    ++ ["Art style: " ++ s.art_style ++ "."]
    ++ [s.lighting ++ ", " ++ s.atmosphere ++ "."]
    ++ charParts
    ++ (if s.setting ≠ "" then ["Setting: " ++ s.setting ++ "."] else [])
    ++ (if is_video then
          ["Smooth motion, cinematic camera movement."]
          ++ (match previous_frame with
              | some pf =>
                  if pf ≠ "" then ["Matching previous frame: " ++ pf ++ "."]
                  else []
              | none => [])
        else [])
    ++ (if s.primary_colors ≠ [] then
          ["Color palette: " ++ strJoin ", " (s.primary_colors.take 3) ++ "."]
        else [])
    ++ [s.camera_style ++ ", " ++ s.composition ++ "."])

/-- The string `" ".join(prompt_parts)` that `generate_consistent_prompt`
returns, before the state update. -/
def promptString (s : VisualState) (base_description segment : String)
    (is_video : Bool) (previous_frame : Option String) :
    Except String String :=
  (promptParts s base_description segment is_video previous_frame).map
    (strJoin " ")

/-- `VisualConsistencyManager.generate_consistent_prompt`: assembles the
parts, then (only after assembly, and only when no exception occurred)
sets `current_segment = segment`, and returns the joined string together
with the post-state. -/
def generate_consistent_prompt (s : VisualState)
    (base_description segment : String) (is_video : Bool)
    (previous_frame : Option String) :
    Except String (String × VisualState) :=
  match promptParts s base_description segment is_video previous_frame with
  | .error e => .error e
  | .ok parts => .ok (strJoin " " parts, { s with current_segment := segment })

/-- `VisualConsistencyManager.update_scene_context`. -/
def update_scene_context (s : VisualState) (scene_description : String) :
    VisualState :=
  { s with previous_scene_summary := scene_description }

/-- `VisualConsistencyManager.set_seed`. -/
def set_seed (s : VisualState) (seed : Int) : VisualState :=
  { s with seed := some seed }

/-- The character dict built by `define_character`:
`{"name": name, "description": description}` in that insertion order. -/
def mkChar (name description : String) : StrDict :=
  [("name", name), ("description", description)]

/-- The loop of `define_character`: scan for the first character whose
`char["name"]` equals `name` (the subscript may raise `KeyError`), update
its `"description"` in place and stop; if none matches, append a new
character dict at the end. -/
def defineCharGo (name description : String) :
    List StrDict → Except String (List StrDict)
  | [] => .ok [mkChar name description]
  | ch :: rest =>
      match dictGet ch "name" with
      | .error e => .error e
      | .ok n =>
          if n = name then .ok (dictSet ch "description" description :: rest)
          else
            match defineCharGo name description rest with
            | .error e => .error e
            | .ok rest2 => .ok (ch :: rest2)

/-- `VisualConsistencyManager.define_character`: upsert into
`main_characters`. -/
def define_character (s : VisualState) (name description : String) :
    Except String VisualState :=
  match defineCharGo name description s.main_characters with
  | .error e => .error e
  | .ok cs => .ok { s with main_characters := cs }

/-- Abstract view of a list of well-formed character dicts: just the
(name, description) pairs. -/
def charsOf (l : List (String × String)) : List StrDict :=
  l.map (fun p => mkChar p.1 p.2)

/-- Upsert on (name, description) pairs: the abstract effect of
`define_character` on well-formed characters. -/
def upsert (name description : String) :
    List (String × String) → List (String × String)
  | [] => [(name, description)]
  | p :: rest =>
      if p.1 = name then (name, description) :: rest
      else p :: upsert name description rest

/-- Loop of `runDefineCalls`: apply the calls left to right, stopping at
the first exception. -/
def runDefineGo (s : VisualState) :
    List (String × String) → Except String VisualState
  | [] => .ok s
  | c :: cs =>
      match define_character s c.1 c.2 with
      | .error e => .error e
      | .ok s2 => runDefineGo s2 cs

/-- A sequence of `define_character` calls starting from the fresh default
state of a newly constructed manager. -/
def runDefineCalls (calls : List (String × String)) :
    Except String VisualState :=
  runDefineGo VisualState.default calls

/-- The abstract effect on (name, description) pairs of a whole sequence of
`define_character` calls starting from an empty character list. -/
def upserts (calls : List (String × String)) : List (String × String) :=
  calls.foldl (fun acc p => upsert p.1 p.2 acc) []

/-- Python `int(str)` semantics (restricted to ASCII): strip surrounding
whitespace, allow one optional sign, then a non-empty run of decimal
digits; anything else raises `ValueError`, modelled as `none`. -/
def dropSpacesL : List Char → List Char
  | [] => []
  | c :: rest => if c.isWhitespace then dropSpacesL rest else c :: rest

/-- Accumulator loop for the digit run of `pyStrToInt`. -/
def digitsValGo : List Char → Nat → Option Nat
  | [], acc => some acc
  | c :: rest, acc =>
      if c.isDigit then digitsValGo rest (acc * 10 + (c.toNat - 48)) else none

/-- Value of a non-empty all-digit run, `none` otherwise. -/
def digitsVal : List Char → Option Nat
  | [] => none
  | c :: rest => digitsValGo (c :: rest) 0

/-- Python `int(s)` for a string argument, as used by
`initialize_from_video_session` (`none` models the caught exception). -/
def pyStrToInt (s : String) : Option Int :=
  let cs := dropSpacesL (dropSpacesL s.data.reverse).reverse
  match cs with
  | '-' :: rest => (digitsVal rest).map (fun n => -(n : Int))
  | '+' :: rest => (digitsVal rest).map (fun n => (n : Int))
  | _ => (digitsVal cs).map (fun n => (n : Int))

/-- The fields of `video_session_data` read by
`initialize_from_video_session`; `none` models an absent key (`.get`
defaults: `""` for topic and interest, `None` for `child_age`). -/
structure SessionData where
  topic : Option String
  child_age : Option String
  child_interest : Option String
deriving DecidableEq, Repr

/-- `VisualConsistencyManager.initialize_from_video_session`: sets the
setting from the topic; when `child_age` is truthy and parses as an int,
re-bands `art_style` (the bare `except: pass` swallows a parse failure);
when `child_interest` is truthy, rewrites `atmosphere`.  Never raises. -/
def initialize_from_video_session (s : VisualState) (d : SessionData) :
    VisualState :=
  let topic := d.topic.getD ""
  let child_interest := d.child_interest.getD ""
  let s1 := { s with setting := "Scene related to " ++ topic }
  let s2 :=
    match d.child_age with
    | none => s1
    | some ca =>
        if ca = "" then s1
        else
          match pyStrToInt ca with
          | none => s1
          | some age =>
              if age < 6 then
                { s1 with art_style := "simple, bold shapes, primary colors" }
              else if age < 10 then
                { s1 with art_style :=
                    "colorful cartoon illustration, friendly characters" }
              else
                { s1 with art_style :=
                    "detailed illustration, realistic elements" }
  if child_interest ≠ "" then
    { s2 with atmosphere := "engaging, " ++ child_interest ++ " themed" }
  else s2

/-- The style dict returned by vision analysis or the fallback: for each of
the three merged keys, `some v` when the key is present.  (The `subjects`
key of the vision reply is never read by the merge.) -/
structure StyleAnalysis where
  art_style : Option String
  primary_colors : Option (List String)
  atmosphere : Option String
deriving DecidableEq, Repr

/-- The empty style dict `{}` (all keys absent). -/
def StyleAnalysis.empty : StyleAnalysis :=
  { art_style := none, primary_colors := none, atmosphere := none }

/-- The fixed fallback used when no OpenRouter API key is configured. -/
def fallbackStyle : StyleAnalysis :=
  { art_style := some "illustrated, colorful, kid-friendly"
    primary_colors := some ["vibrant", "saturated"]
    atmosphere := some "educational, engaging" }

/-- The state update of `extract_style_from_diagram` (source lines
125-129), reached only after a successful download: `reference_image_url`
is assigned the url; `art_style` and `atmosphere` use
`style_analysis.get(key, current_value)`; `primary_colors` uses
`style_analysis.get("primary_colors", [])` — the fallback is the EMPTY
list, not the current value. -/
def mergeStyleAnalysis (s : VisualState) (diagram_url : String)
    (sa : StyleAnalysis) : VisualState :=
  { s with reference_image_url := some diagram_url
           art_style := sa.art_style.getD s.art_style
           primary_colors := sa.primary_colors.getD []
           atmosphere := sa.atmosphere.getD s.atmosphere }

/-- `VisualConsistencyManager.extract_style_from_diagram`.  The network is
abstracted by `fetch` — `.error e` for an exception during the download
(caught by the outer `except`, which returns `{}` leaving the state
untouched), `.ok status` for an HTTP reply; a status other than 200 also
returns `{}` without touching the state.  On a 200 reply the style dict is
the vision reply `vision_result` when an API key is configured
(`_analyze_with_vision` catches its own failures and returns `{}`), else
the fixed fallback; it is merged into the state and returned. -/
def extract_style_from_diagram (s : VisualState) (diagram_url : String)
    (fetch : Except String Nat) (has_api_key : Bool)
    (vision_result : StyleAnalysis) : VisualState × StyleAnalysis :=
  match fetch with
  | .error _ => (s, StyleAnalysis.empty)
  | .ok status =>
      if status ≠ 200 then (s, StyleAnalysis.empty)
      else
        let sa := if has_api_key then vision_result else fallbackStyle
        (mergeStyleAnalysis s diagram_url sa, sa)

/-- `VideoConsistencyHelper`: the manager it owns (as its state) when one
has been initialized, and the rolling `previous_scene` pointer. -/
structure VideoConsistencyHelper where
  consistency_manager : Option VisualState
  previous_scene : Option String
deriving DecidableEq, Repr

/-- `VideoConsistencyHelper.enhance_video_prompt`: with no manager, the
base prompt is returned unchanged; otherwise `generate_consistent_prompt`
is called with `is_video=True` and `previous_frame=self.previous_scene`;
on success `previous_scene` is set to the fixed placeholder and the
enhanced prompt returned; an exception is caught and the base prompt
returned with the helper unchanged. -/
def enhance_video_prompt (h : VideoConsistencyHelper)
    (base_prompt segment : String) : String × VideoConsistencyHelper :=
  match h.consistency_manager with
  | none => (base_prompt, h)
  | some vs =>
      match generate_consistent_prompt vs base_prompt segment true
          h.previous_scene with
      | .ok (enhanced, vs2) =>
          (enhanced,
           { consistency_manager := some vs2
             previous_scene := some ("Previous " ++ segment ++ " segment") })
      | .error _ => (base_prompt, h)

/-! ## Helper lemmas -/

/-- Joining a non-empty list starts with its head. -/
theorem strJoin_cons_starts (sep a : String) (l : List String) :
    ∃ t, strJoin sep (a :: l) = a ++ t := by
  cases l with
  | nil => exact ⟨"", by simp [strJoin]⟩
  | cons b rest =>
      exact ⟨sep ++ strJoin sep (b :: rest), by simp [strJoin, String.append_assoc]⟩

/-- A well-formed character dict answers `"name"` with its name. -/
theorem dictGet_mkChar_name (n d : String) :
    dictGet (mkChar n d) "name" = .ok n := rfl

/-- A well-formed character dict answers `"description"` with its
description. -/
theorem dictGet_mkChar_description (n d : String) :
    dictGet (mkChar n d) "description" = .ok d := rfl

/-- Updating the description of a well-formed character dict keeps it
well-formed. -/
theorem dictSet_mkChar_description (n d d2 : String) :
    dictSet (mkChar n d) "description" d2 = mkChar n d2 := rfl

/-- A well-formed character dict renders to its one prompt line. -/
theorem charLine_mkChar (n d : String) :
    charLine (mkChar n d) = .ok (n ++ ": " ++ d ++ ".") := rfl

/-- Rendering well-formed characters always succeeds, one line each. -/
theorem renderChars_charsOf (l : List (String × String)) :
    renderChars (charsOf l) = .ok (l.map (fun p => p.1 ++ ": " ++ p.2 ++ ".")) := by
  induction l with
  | nil => rfl
  | cons p rest ih =>
      rw [charsOf, List.map_cons, renderChars, charLine_mkChar]
      rw [show List.map (fun p => mkChar p.1 p.2) rest = charsOf rest from rfl, ih]
      rfl

/-! ## C2 — snapshot round-trip -/

/-- C2: for every `VisualState s`, `from_dict (to_dict s)` equals `s`
field-wise, and `generate_consistent_prompt` applied with the same
arguments to `s` and to the round-tripped state returns identical
results (hence identical prompt strings). -/
theorem visualState_roundtrip_preserves_prompts (s : VisualState)
    (base segment : String) (is_video : Bool) (pf : Option String) :
    VisualState.from_dict (VisualState.to_dict s) = s ∧
    generate_consistent_prompt (VisualState.from_dict (VisualState.to_dict s))
        base segment is_video pf
      = generate_consistent_prompt s base segment is_video pf :=
  ⟨rfl, rfl⟩

/-! ## C8 — deserialization of malformed snapshots -/

/-- C8 counterexample: deserializing the snapshot with every key absent
does not fail — `load_state` (via `VisualState.from_dict`, i.e.
`cls(**data)`) silently produces the fully defaulted state.  No
`MalformedStateError` exists anywhere in the source. -/
theorem from_dict_silently_defaults_cex :
    load_state Snapshot.empty = VisualState.default := rfl

/-- C8 amended: `load_state` / `from_dict` never fail on snapshots with
absent keys; each absent key silently takes the construction default of
the corresponding field (and a present key supplies the field verbatim,
with no shape validation). -/
theorem from_dict_absent_keys_default (d : Snapshot) :
    (d.reference_image_url = none →
      (load_state d).reference_image_url = VisualState.default.reference_image_url) ∧
    (d.primary_colors = none →
      (load_state d).primary_colors = VisualState.default.primary_colors) ∧
    (d.art_style = none →
      (load_state d).art_style = VisualState.default.art_style) ∧
    (d.main_characters = none →
      (load_state d).main_characters = VisualState.default.main_characters) ∧
    (d.setting = none → (load_state d).setting = VisualState.default.setting) ∧
    (d.lighting = none → (load_state d).lighting = VisualState.default.lighting) ∧
    (d.atmosphere = none →
      (load_state d).atmosphere = VisualState.default.atmosphere) ∧
    (d.camera_style = none →
      (load_state d).camera_style = VisualState.default.camera_style) ∧
    (d.composition = none →
      (load_state d).composition = VisualState.default.composition) ∧
    (d.current_segment = none →
      (load_state d).current_segment = VisualState.default.current_segment) ∧
    (d.previous_scene_summary = none →
      (load_state d).previous_scene_summary = VisualState.default.previous_scene_summary) ∧
    (d.seed = none → (load_state d).seed = VisualState.default.seed) ∧
    (∀ v, d.art_style = some v → (load_state d).art_style = v) := by
  refine ⟨?_, ?_, ?_, ?_, ?_, ?_, ?_, ?_, ?_, ?_, ?_, ?_, ?_⟩ <;>
    first
      | (intro h; simp [load_state, VisualState.from_dict, VisualState.default, h])
      | (intro v h; simp [load_state, VisualState.from_dict, h])

/-- C8 witness: the amended theorem applied to the all-absent snapshot. -/
theorem from_dict_absent_keys_default_witness :
    (load_state Snapshot.empty).art_style = VisualState.default.art_style ∧
    (load_state Snapshot.empty).primary_colors = VisualState.default.primary_colors :=
  ⟨(from_dict_absent_keys_default Snapshot.empty).2.2.1 rfl,
   (from_dict_absent_keys_default Snapshot.empty).2.1 rfl⟩

/-! ## C3 — merge semantics of extracted style attributes -/

/-- C3 counterexample: a successful extraction whose result lacks the
`primary_colors` key does NOT keep the prior `primary_colors` — the merge
uses `style_analysis.get("primary_colors", [])`, so the field is reset to
the empty list. -/
theorem merge_absent_colors_overwritten_cex :
    (extract_style_from_diagram
        { VisualState.default with primary_colors := ["#FF5733"] }
        "http://diagram.png" (.ok 200) true
        { art_style := some "cartoon", primary_colors := none,
          atmosphere := some "moody" }).1.primary_colors
      ≠ ["#FF5733"] := by decide

/-- C3 amended: on a successful extraction the merge overwrites
`art_style` and `atmosphere` only for keys present in the result (an
absent key keeps the prior value), but `primary_colors` is always
overwritten — to the extracted list when the key is present and to the
empty list when it is absent. -/
theorem merge_style_semantics (s : VisualState) (url : String)
    (v : StyleAnalysis) :
    ((extract_style_from_diagram s url (.ok 200) true v).1 =
        mergeStyleAnalysis s url v) ∧
    (v.art_style = none → (mergeStyleAnalysis s url v).art_style = s.art_style) ∧
    (∀ a, v.art_style = some a → (mergeStyleAnalysis s url v).art_style = a) ∧
    (v.atmosphere = none →
      (mergeStyleAnalysis s url v).atmosphere = s.atmosphere) ∧
    (∀ a, v.atmosphere = some a → (mergeStyleAnalysis s url v).atmosphere = a) ∧
    ((mergeStyleAnalysis s url v).primary_colors = v.primary_colors.getD []) ∧
    (v.primary_colors = none → (mergeStyleAnalysis s url v).primary_colors = []) := by
  refine ⟨by simp [extract_style_from_diagram], ?_, ?_, ?_, ?_, ?_, ?_⟩ <;>
    first
      | (intro h; simp [mergeStyleAnalysis, h])
      | (intro a h; simp [mergeStyleAnalysis, h])
      | simp [mergeStyleAnalysis]

/-- C3 witness: the amended theorem applied to a concrete state and a
result with only `atmosphere` present. -/
theorem merge_style_semantics_witness :
    (mergeStyleAnalysis { VisualState.default with primary_colors := ["#FF5733"] }
        "http://diagram.png"
        { art_style := none, primary_colors := none, atmosphere := some "moody" }).art_style
      = { VisualState.default with primary_colors := ["#FF5733"] }.art_style ∧
    (mergeStyleAnalysis { VisualState.default with primary_colors := ["#FF5733"] }
        "http://diagram.png"
        { art_style := none, primary_colors := none, atmosphere := some "moody" }).primary_colors
      = [] :=
  ⟨(merge_style_semantics { VisualState.default with primary_colors := ["#FF5733"] }
      "http://diagram.png"
      { art_style := none, primary_colors := none, atmosphere := some "moody" }).2.1 rfl,
   (merge_style_semantics { VisualState.default with primary_colors := ["#FF5733"] }
      "http://diagram.png"
      { art_style := none, primary_colors := none, atmosphere := some "moody" }).2.2.2.2.2.2 rfl⟩

/-! ## C4 — when the reference image url is recorded -/

/-- C4 counterexample: after an attempted extraction whose image download
answers 404, `reference_image_url` is NOT set to the url — the method
returns `{}` before reaching the state update. -/
theorem extract_failed_fetch_ref_url_cex :
    (extract_style_from_diagram VisualState.default "http://diagram.png"
        (.ok 404) false StyleAnalysis.empty).1.reference_image_url
      ≠ some "http://diagram.png" := by decide

/-- C4 amended: `reference_image_url` is set to the url exactly when the
image download succeeds with status 200; on a download exception or any
non-200 status the whole call returns `{}` and the state — in particular
`reference_image_url` — is left untouched. -/
theorem extract_ref_url_semantics (s : VisualState) (url : String)
    (has_key : Bool) (v : StyleAnalysis) :
    ((extract_style_from_diagram s url (.ok 200) has_key v).1.reference_image_url
        = some url) ∧
    (∀ e, extract_style_from_diagram s url (.error e) has_key v
        = (s, StyleAnalysis.empty)) ∧
    (∀ status, status ≠ 200 →
      extract_style_from_diagram s url (.ok status) has_key v
        = (s, StyleAnalysis.empty)) := by
  refine ⟨?_, fun e => rfl, fun status hst => ?_⟩
  · cases has_key <;> simp [extract_style_from_diagram, mergeStyleAnalysis]
  · simp [extract_style_from_diagram, hst]

/-- C4 witness: the amended theorem applied at a 404 download and at a
successful one. -/
theorem extract_ref_url_semantics_witness :
    extract_style_from_diagram VisualState.default "http://diagram.png"
        (.ok 404) false StyleAnalysis.empty
      = (VisualState.default, StyleAnalysis.empty) ∧
    (extract_style_from_diagram VisualState.default "http://diagram.png"
        (.ok 200) false StyleAnalysis.empty).1.reference_image_url
      = some "http://diagram.png" :=
  ⟨(extract_ref_url_semantics VisualState.default "http://diagram.png" false
      StyleAnalysis.empty).2.2 404 (by decide),
   (extract_ref_url_semantics VisualState.default "http://diagram.png" false
      StyleAnalysis.empty).1⟩

/-! ## C1 — continuity clause emission -/

/-- C1: for every manager state, a `"hook"` call never emits the
"Continuing from previous scene" clause (the assembled prompt is the one
of the state with an empty summary, and the first part is the base
description); for every call with `segment ≠ "hook"` and a non-empty
`previous_scene_summary`, the clause is the first part and the returned
prompt string begins with it. -/
theorem gcp_hook_and_continuity_clause (s : VisualState)
    (base : String) (iv : Bool) (pf : Option String) (segment : String)
    (hseg : segment ≠ "hook") (hpss : s.previous_scene_summary ≠ "") :
    (promptString s base "hook" iv pf =
       promptString { s with previous_scene_summary := "" } base "hook" iv pf) ∧
    (∀ l, promptParts s base "hook" iv pf = .ok l → l.head? = some base) ∧
    (∀ l, promptParts s base segment iv pf = .ok l →
       l.head? = some (continuityClause s.previous_scene_summary)) ∧
    (∀ p s2, generate_consistent_prompt s base segment iv pf = .ok (p, s2) →
       ∃ t, p = continuityClause s.previous_scene_summary ++ t) := by
  refine ⟨?_, ?_, ?_, ?_⟩
  · simp [promptString, promptParts]
  · intro l hl
    cases hr : renderChars s.main_characters with
    | error e => unfold promptParts at hl; rw [hr] at hl; simp at hl
    | ok cps =>
        unfold promptParts at hl
        rw [hr] at hl
        simp only [Except.ok.injEq] at hl
        subst hl
        simp
  · intro l hl
    cases hr : renderChars s.main_characters with
    | error e => unfold promptParts at hl; rw [hr] at hl; simp at hl
    | ok cps =>
        unfold promptParts at hl
        rw [hr] at hl
        simp only [Except.ok.injEq] at hl
        subst hl
        simp [hseg, hpss]
  · intro p s2 h
    cases hr : promptParts s base segment iv pf with
    | error e => unfold generate_consistent_prompt at h; rw [hr] at h; simp at h
    | ok parts =>
        unfold generate_consistent_prompt at h
        rw [hr] at h
        simp only [Except.ok.injEq, Prod.mk.injEq] at h
        obtain ⟨hp, -⟩ := h
        cases hparts : parts with
        | nil =>
            unfold promptParts at hr
            cases hr2 : renderChars s.main_characters <;> rw [hr2] at hr <;>
              simp [hparts] at hr
        | cons a rest =>
            have hhead : parts.head? = some (continuityClause s.previous_scene_summary) := by
              revert hr
              intro hr
              cases hr2 : renderChars s.main_characters with
              | error e => unfold promptParts at hr; rw [hr2] at hr; simp at hr
              | ok cps =>
                  unfold promptParts at hr
                  rw [hr2] at hr
                  simp only [Except.ok.injEq] at hr
                  rw [← hr]
                  simp [hseg, hpss]
            rw [hparts] at hhead
            simp only [List.head?_cons, Option.some.injEq] at hhead
            subst hhead
            obtain ⟨t, ht⟩ := strJoin_cons_starts " " (continuityClause s.previous_scene_summary) rest
            exact ⟨t, by rw [← hp, hparts, ht]⟩

/-- C1 witness: the theorem applied to the default state with a non-empty
previous-scene summary, at segment `"concept"`. -/
theorem gcp_hook_and_continuity_clause_witness :
    (promptString { VisualState.default with previous_scene_summary := "the hero appeared" }
        "next scene" "hook" false none
      = promptString { VisualState.default with previous_scene_summary := "" }
        "next scene" "hook" false none) ∧
    (∃ t, "Continuing from previous scene: the hero appeared. next scene Art style: hand-drawn cartoon illustration. bright, warm lighting, cheerful, educational. medium shot, eye level, centered, balanced."
      = continuityClause "the hero appeared" ++ t) :=
  ⟨(gcp_hook_and_continuity_clause
      { VisualState.default with previous_scene_summary := "the hero appeared" }
      "next scene" false none "concept" (by decide) (by decide)).1,
   (gcp_hook_and_continuity_clause
      { VisualState.default with previous_scene_summary := "the hero appeared" }
      "next scene" false none "concept" (by decide) (by decide)).2.2.2
     "Continuing from previous scene: the hero appeared. next scene Art style: hand-drawn cartoon illustration. bright, warm lighting, cheerful, educational. medium shot, eye level, centered, balanced."
     { VisualState.default with
        previous_scene_summary := "the hero appeared"
        current_segment := "concept" }
     (by rfl)⟩

/-! ## C7 — segment update happens after assembly -/

/-- C7: whenever `generate_consistent_prompt` returns, the post-state has
`current_segment = segment` and equals the pre-state with only that field
changed, and the returned prompt equals the string assembled from the
pre-state (`promptString`), i.e. the prompt is computed from the state's
values as they were before the update. -/
theorem gcp_sets_segment_after_assembly (s : VisualState)
    (base segment : String) (iv : Bool) (pf : Option String)
    (p : String) (s2 : VisualState)
    (h : generate_consistent_prompt s base segment iv pf = .ok (p, s2)) :
    s2.current_segment = segment ∧
    s2 = { s with current_segment := segment } ∧
    promptString s base segment iv pf = .ok p := by
  cases hr : promptParts s base segment iv pf with
  | error e => unfold generate_consistent_prompt at h; rw [hr] at h; simp at h
  | ok parts =>
      unfold generate_consistent_prompt at h
      rw [hr] at h
      simp only [Except.ok.injEq, Prod.mk.injEq] at h
      obtain ⟨hp, hs⟩ := h
      subst hp
      subst hs
      exact ⟨rfl, rfl, by unfold promptString; rw [hr]; rfl⟩

/-- C7 witness: the theorem applied to the default state at segment
`"concept"`. -/
theorem gcp_sets_segment_after_assembly_witness :
    ({ VisualState.default with current_segment := "concept" } : VisualState).current_segment
      = "concept" ∧
    ({ VisualState.default with current_segment := "concept" } : VisualState)
      = { VisualState.default with current_segment := "concept" } ∧
    promptString VisualState.default "b" "concept" false none
      = .ok "b Art style: hand-drawn cartoon illustration. bright, warm lighting, cheerful, educational. medium shot, eye level, centered, balanced." :=
  gcp_sets_segment_after_assembly VisualState.default "b" "concept" false none
    "b Art style: hand-drawn cartoon illustration. bright, warm lighting, cheerful, educational. medium shot, eye level, centered, balanced."
    { VisualState.default with current_segment := "concept" } (by rfl)

/-! ## C9 — enhancement falls back to the base prompt -/

/-- C9: `enhance_video_prompt` returns the base prompt unchanged (and the
helper untouched) when no consistency manager is initialized, and likewise
when the internal `generate_consistent_prompt` call raises. -/
theorem enhance_prompt_fallback_behavior (h : VideoConsistencyHelper)
    (base_prompt segment : String) :
    (h.consistency_manager = none →
      enhance_video_prompt h base_prompt segment = (base_prompt, h)) ∧
    (∀ vs e, h.consistency_manager = some vs →
      generate_consistent_prompt vs base_prompt segment true h.previous_scene
        = .error e →
      enhance_video_prompt h base_prompt segment = (base_prompt, h)) := by
  constructor
  · intro hm
    simp only [enhance_video_prompt, hm]
  · intro vs e hm hg
    simp only [enhance_video_prompt, hm, hg]

/-- C9 witness: the theorem applied to an uninitialized helper, and to a
helper whose loaded state has a character dict without a `"name"` key, on
which `generate_consistent_prompt` raises `KeyError`. -/
theorem enhance_prompt_fallback_behavior_witness :
    enhance_video_prompt
        { consistency_manager := none, previous_scene := none } "base" "concept"
      = ("base", { consistency_manager := none, previous_scene := none }) ∧
    enhance_video_prompt
        { consistency_manager :=
            some { VisualState.default with main_characters := [[("nom", "x")]] }
          previous_scene := some "prev" } "base" "concept"
      = ("base",
         { consistency_manager :=
             some { VisualState.default with main_characters := [[("nom", "x")]] }
           previous_scene := some "prev" }) :=
  ⟨(enhance_prompt_fallback_behavior
      { consistency_manager := none, previous_scene := none } "base" "concept").1 rfl,
   (enhance_prompt_fallback_behavior
      { consistency_manager :=
          some { VisualState.default with main_characters := [[("nom", "x")]] }
        previous_scene := some "prev" } "base" "concept").2
     { VisualState.default with main_characters := [[("nom", "x")]] }
     "KeyError: name" rfl (by rfl)⟩

/-! ## C10 — previous_scene is updated only on success -/

/-- C10: when the manager is initialized, a failing
`generate_consistent_prompt` leaves the helper's `previous_scene` (and the
whole helper) unchanged, while a successful one sets `previous_scene` to
the placeholder `"Previous {segment} segment"`. -/
theorem enhance_prompt_previous_scene_atomic (h : VideoConsistencyHelper)
    (base_prompt segment : String) (vs : VisualState)
    (hm : h.consistency_manager = some vs) :
    (∀ e, generate_consistent_prompt vs base_prompt segment true h.previous_scene
        = .error e →
      (enhance_video_prompt h base_prompt segment).2.previous_scene
        = h.previous_scene ∧
      (enhance_video_prompt h base_prompt segment).2 = h) ∧
    (∀ p vs2,
      generate_consistent_prompt vs base_prompt segment true h.previous_scene
        = .ok (p, vs2) →
      (enhance_video_prompt h base_prompt segment).2.previous_scene
        = some ("Previous " ++ segment ++ " segment")) := by
  constructor
  · intro e hg
    simp only [enhance_video_prompt, hm, hg]
    exact ⟨trivial, trivial⟩
  · intro p vs2 hg
    simp only [enhance_video_prompt, hm, hg]

/-- C10 witness: the theorem applied to a helper with a malformed character
dict (failure keeps `previous_scene`) and to a default-state helper
(success overwrites it with the placeholder). -/
theorem enhance_prompt_previous_scene_atomic_witness :
    (enhance_video_prompt
        { consistency_manager :=
            some { VisualState.default with main_characters := [[("nom", "x")]] }
          previous_scene := some "prev" } "base" "concept").2.previous_scene
      = some "prev" ∧
    (enhance_video_prompt
        { consistency_manager := some VisualState.default
          previous_scene := none } "base" "concept").2.previous_scene
      = some ("Previous " ++ "concept" ++ " segment") :=
  ⟨((enhance_prompt_previous_scene_atomic
      { consistency_manager :=
          some { VisualState.default with main_characters := [[("nom", "x")]] }
        previous_scene := some "prev" } "base" "concept"
      { VisualState.default with main_characters := [[("nom", "x")]] } rfl).1
     "KeyError: name" (by rfl)).1,
   (enhance_prompt_previous_scene_atomic
      { consistency_manager := some VisualState.default
        previous_scene := none } "base" "concept"
      VisualState.default rfl).2
     "base Art style: hand-drawn cartoon illustration. bright, warm lighting, cheerful, educational. Smooth motion, cinematic camera movement. medium shot, eye level, centered, balanced."
     { VisualState.default with current_segment := "concept" } (by rfl)⟩

/-! ## C6 — initialization from session data -/

/-- C6: `initialize_from_video_session` with topic "Photosynthesis", age
"4" and interest "dinosaurs" yields the claimed setting, art style and
atmosphere; and for every session dict whose `child_age` does not parse as
an integer, `art_style` keeps its prior value (the function is total, so
no error is raised). -/
theorem initialize_from_session_behavior (s : VisualState) :
    ((initialize_from_video_session s
        ⟨some "Photosynthesis", some "4", some "dinosaurs"⟩).setting
      = "Scene related to Photosynthesis" ∧
     (initialize_from_video_session s
        ⟨some "Photosynthesis", some "4", some "dinosaurs"⟩).art_style
      = "simple, bold shapes, primary colors" ∧
     (initialize_from_video_session s
        ⟨some "Photosynthesis", some "4", some "dinosaurs"⟩).atmosphere
      = "engaging, dinosaurs themed") ∧
    (∀ (d : SessionData) (ca : String), d.child_age = some ca →
      pyStrToInt ca = none →
      (initialize_from_video_session s d).art_style = s.art_style) := by
  have h4 : pyStrToInt "4" = some 4 := rfl
  constructor
  · refine ⟨?_, ?_, ?_⟩ <;> simp [initialize_from_video_session, h4]
  · intro d ca hca hparse
    unfold initialize_from_video_session
    rw [hca]
    by_cases hc : ca = ""
    · simp only [hc, if_pos rfl]
      split <;> simp
    · simp only [if_neg hc, hparse]
      split <;> simp

/-- C6 witness: the theorem applied to a session dict whose age is
"not-a-number". -/
theorem initialize_from_session_behavior_witness :
    (initialize_from_video_session VisualState.default
        ⟨some "Photosynthesis", some "not-a-number", some "dinosaurs"⟩).art_style
      = VisualState.default.art_style :=
  (initialize_from_session_behavior VisualState.default).2
    ⟨some "Photosynthesis", some "not-a-number", some "dinosaurs"⟩
    "not-a-number" rfl rfl

/-! ## C5 — define_character upsert semantics -/

/-- The loop of `define_character` on well-formed characters is exactly
`upsert` on the underlying (name, description) pairs, and never raises. -/
theorem defineCharGo_charsOf (n d : String) (l : List (String × String)) :
    defineCharGo n d (charsOf l) = .ok (charsOf (upsert n d l)) := by
  induction l with
  | nil => rfl
  | cons p rest ih =>
      by_cases hp : p.1 = n
      · simp [charsOf, defineCharGo, dictGet_mkChar_name,
          dictSet_mkChar_description, upsert, hp]
      · simp only [charsOf, List.map_cons, defineCharGo, dictGet_mkChar_name,
          if_neg hp, upsert]
        rw [show List.map (fun q => mkChar q.1 q.2) rest = charsOf rest from rfl, ih]
        simp [charsOf]

/-- `define_character` on a state with well-formed characters succeeds and
performs the upsert. -/
theorem define_character_charsOf (s : VisualState)
    (l : List (String × String)) (hs : s.main_characters = charsOf l)
    (n d : String) :
    define_character s n d
      = .ok { s with main_characters := charsOf (upsert n d l) } := by
  unfold define_character
  rw [hs, defineCharGo_charsOf]

/-- Upserting the same name twice keeps only the latest description. -/
theorem upsert_same_name (n d1 d2 : String) (l : List (String × String)) :
    upsert n d2 (upsert n d1 l) = upsert n d2 l := by
  induction l with
  | nil => simp [upsert]
  | cons p rest ih =>
      by_cases hp : p.1 = n
      · simp [upsert, hp]
      · simp [upsert, hp, ih]

/-- Upserting a fresh name appends at the end. -/
theorem upsert_fresh_append (n d : String) (l : List (String × String))
    (h : n ∉ l.map Prod.fst) :
    upsert n d l = l ++ [(n, d)] := by
  induction l with
  | nil => rfl
  | cons p rest ih =>
      simp only [List.map_cons, List.mem_cons, not_or] at h
      obtain ⟨h1, h2⟩ := h
      rw [upsert, if_neg (fun hh => h1 hh.symm), ih h2, List.cons_append]

/-- The names after an upsert: unchanged when the name was present,
extended by it at the end otherwise. -/
theorem upsert_names (n d : String) (l : List (String × String)) :
    (upsert n d l).map Prod.fst
      = if n ∈ l.map Prod.fst then l.map Prod.fst
        else l.map Prod.fst ++ [n] := by
  induction l with
  | nil => simp [upsert]
  | cons p rest ih =>
      by_cases hp : p.1 = n
      · simp [upsert, hp]
      · have hne : ¬ n = p.1 := fun hh => hp hh.symm
        by_cases hm : n ∈ rest.map Prod.fst
        · simp [upsert, hp, ih, hm, hne]
        · simp [upsert, hp, ih, hm, hne]

/-- Upserting preserves uniqueness of names. -/
theorem upsert_names_nodup (n d : String) (l : List (String × String))
    (h : (l.map Prod.fst).Nodup) :
    ((upsert n d l).map Prod.fst).Nodup := by
  rw [upsert_names]
  by_cases hm : n ∈ l.map Prod.fst
  · simp [hm, h]
  · simp [hm, List.nodup_append, h]

/-- Folding upserts preserves uniqueness of names. -/
theorem upserts_foldl_nodup (calls : List (String × String)) :
    ∀ l : List (String × String), (l.map Prod.fst).Nodup →
      ((calls.foldl (fun acc p => upsert p.1 p.2 acc) l).map Prod.fst).Nodup := by
  induction calls with
  | nil => intro l h; simpa using h
  | cons c cs ih =>
      intro l h
      rw [List.foldl_cons]
      exact ih _ (upsert_names_nodup c.1 c.2 l h)

/-- Unique names bound the per-name count by one. -/
theorem nodup_countP_le_one (l : List (String × String)) (nm : String)
    (h : (l.map Prod.fst).Nodup) :
    l.countP (fun p => p.1 = nm) ≤ 1 := by
  induction l with
  | nil => simp
  | cons p rest ih =>
      simp only [List.map_cons, List.nodup_cons] at h
      obtain ⟨hnp, hnd⟩ := h
      by_cases hp : p.1 = nm
      · have hzero : rest.countP (fun q => decide (q.1 = nm)) = 0 := by
          rw [List.countP_eq_zero]
          intro q hq hqe
          simp only [decide_eq_true_eq] at hqe
          have hq2 : q.1 ∈ List.map Prod.fst rest := List.mem_map_of_mem Prod.fst hq
          rw [hqe, ← hp] at hq2
          exact absurd hq2 hnp
        rw [List.countP_cons]
        simp [hzero, hp]
      · rw [List.countP_cons]
        simp only [hp, decide_eq_true_eq, if_false]
        simpa using ih hnd

/-- A run of the `define_character` loop from a state with well-formed
characters succeeds and folds the upserts. -/
theorem runDefineGo_charsOf (calls : List (String × String)) :
    ∀ (s : VisualState) (l : List (String × String)),
      s.main_characters = charsOf l →
      runDefineGo s calls
        = .ok { s with
            main_characters := charsOf (calls.foldl (fun acc p => upsert p.1 p.2 acc) l) } := by
  induction calls with
  | nil =>
      intro s l hs
      rw [runDefineGo, List.foldl_nil, ← hs]
  | cons c cs ih =>
      intro s l hs
      rw [runDefineGo, define_character_charsOf s l hs c.1 c.2]
      show runDefineGo { s with main_characters := charsOf (upsert c.1 c.2 l) } cs = _
      rw [ih { s with main_characters := charsOf (upsert c.1 c.2 l) }
        (upsert c.1 c.2 l) rfl]
      rw [List.foldl_cons]

/-- C5: from a state whose characters are well-formed with fresh names `n`
and `m`, defining `n` twice keeps exactly one `n` entry carrying the
latest description at the position the first call created; defining `n`
then `m` appends both in call order; and any sequence of
`define_character` calls from the fresh default state succeeds and leaves
at most one entry per name. -/
theorem define_character_upsert_behavior
    (s : VisualState) (l : List (String × String))
    (hs : s.main_characters = charsOf l)
    (n d1 d2 m dm : String)
    (hn : n ∉ l.map Prod.fst) (hm : m ∉ l.map Prod.fst) (hnm : n ≠ m)
    (calls : List (String × String)) :
    ((define_character s n d1).bind (fun s1 => define_character s1 n d2)
      = .ok { s with main_characters := charsOf (l ++ [(n, d2)]) }) ∧
    ((l ++ [(n, d2)]).countP (fun p => p.1 = n) = 1) ∧
    ((define_character s n d1).bind (fun s1 => define_character s1 m dm)
      = .ok { s with main_characters := charsOf (l ++ [(n, d1), (m, dm)]) }) ∧
    (∃ t, runDefineCalls calls = .ok t ∧
      t.main_characters = charsOf (upserts calls) ∧
      ((upserts calls).map Prod.fst).Nodup ∧
      ∀ nm, (upserts calls).countP (fun p => p.1 = nm) ≤ 1) := by
  refine ⟨?_, ?_, ?_, ?_⟩
  · rw [define_character_charsOf s l hs n d1]
    rw [Except.bind]
    rw [define_character_charsOf _ (upsert n d1 l) rfl n d2]
    rw [upsert_same_name, upsert_fresh_append n d2 l hn]
  · have hzero : l.countP (fun p => decide (p.1 = n)) = 0 := by
      rw [List.countP_eq_zero]
      intro q hq hqe
      simp only [decide_eq_true_eq] at hqe
      exact hn (by rw [← hqe]; exact List.mem_map_of_mem Prod.fst hq)
    rw [List.countP_append, hzero]
    simp
  · rw [define_character_charsOf s l hs n d1]
    rw [Except.bind]
    rw [define_character_charsOf _ (upsert n d1 l) rfl m dm]
    rw [upsert_fresh_append n d1 l hn]
    have hm2 : m ∉ (l ++ [(n, d1)]).map Prod.fst := by
      simp only [List.map_append, List.mem_append, not_or]
      exact ⟨hm, by simpa using hnm.symm⟩
    rw [upsert_fresh_append m dm _ hm2, List.append_assoc]
    rfl
  · refine ⟨{ VisualState.default with main_characters := charsOf (upserts calls) },
      ?_, rfl, ?_, ?_⟩
    · exact runDefineGo_charsOf calls VisualState.default [] rfl
    · exact upserts_foldl_nodup calls [] (by simp)
    · intro nm
      exact nodup_countP_le_one _ nm (upserts_foldl_nodup calls [] (by simp))

/-- C5 witness: the theorem applied to the fresh default state with the
names "Drippy" and "Rocky". -/
theorem define_character_upsert_behavior_witness :
    ((define_character VisualState.default "Drippy" "a blue droplet").bind
        (fun s1 => define_character s1 "Drippy" "a smiling droplet")
      = .ok { VisualState.default with
          main_characters := charsOf [("Drippy", "a smiling droplet")] }) ∧
    ((define_character VisualState.default "Drippy" "a blue droplet").bind
        (fun s1 => define_character s1 "Rocky" "a grey pebble")
      = .ok { VisualState.default with
          main_characters :=
            charsOf [("Drippy", "a blue droplet"), ("Rocky", "a grey pebble")] }) :=
  ⟨(define_character_upsert_behavior VisualState.default [] rfl
      "Drippy" "a blue droplet" "a smiling droplet" "Rocky" "a grey pebble"
      (by simp) (by simp) (by decide) []).1,
   (define_character_upsert_behavior VisualState.default [] rfl
      "Drippy" "a blue droplet" "a smiling droplet" "Rocky" "a grey pebble"
      (by simp) (by simp) (by decide) []).2.2.1⟩
